import Mathlib

/-!
Verification of the `chainer_sentiment_analysis.ipynb` notebook
(amazon-sagemaker-examples, sagemaker-python-sdk/chainer_sentiment_analysis).

The notebook is a linear sequence of cells issuing calls into the SageMaker
SDK and helper modules.  We embed the externally visible calls of a
top-to-bottom run as a concrete trace, embed the small pure computations
(cell-5 projections and file handling, cell-19 line processing) as Lean
functions, and settle the frozen claims against them.
-/

namespace ChainerSentiment

/-- Which list of sentences a `predictor.predict` call receives: the three
hand-written sample sentences of cell-17, or the stripped prefix of the test
file built in cell-19. -/
inductive PredIn where
  | samples
  | testLines
deriving DecidableEq, Repr

/-- One externally visible call issued by the notebook, with the arguments
that identify it in the source.  Constructors follow the cells in order:
cell-3 (`dataset.download_dataset`, `dataset.get_stsa_dataset`, reading
`file_paths[0]`), cell-5 (`np.savez`, `np.save`,
`sagemaker_session.upload_data`), cell-9 (`chainer_estimator.fit`), cell-11
(`describe_training_job`, `retrieve_output_from_s3`), cell-15 (`deploy`),
cells 17 and 19 (`predictor.predict`), cell-21 (`delete_endpoint`). -/
inductive Call where
  | downloadDataset (name : String)
  | getStsaDataset
  | readFile (pathIdx : Nat)
  | savez (path : String)
  | saveNpy (path : String)
  | uploadData (path : String) (keyPfx : String)
  | fit
  | describeTrainingJob
  | retrieveOutputFromS3
  | deploy
  | predict (input : PredIn)
  | deleteEndpoint
deriving DecidableEq, Repr

/-- The externally visible calls of one top-to-bottom run of the notebook,
in source order.  Transcribed cell by cell from the notebook. -/
def notebookCalls : List Call :=
  [ -- cell-3
    Call.downloadDataset "stsa.binary",
    Call.getStsaDataset,          -- new_file_paths = dataset.get_stsa_dataset(file_paths)
    Call.getStsaDataset,          -- train, test, vocab = dataset.get_stsa_dataset(file_paths)
    Call.readFile 0,              -- with open(file_paths[0], 'r') ... print 20 lines
    -- cell-5
    Call.savez "/tmp/data/train_sentiment/train.npz",
    Call.savez "/tmp/data/test_sentiment/test.npz",
    Call.saveNpy "/tmp/data/vocab/vocab.npy",
    Call.uploadData "/tmp/data/train_sentiment" "notebook/chainer_sentiment/train",
    Call.uploadData "/tmp/data/test_sentiment" "notebook/chainer_sentiment/test",
    Call.uploadData "/tmp/data/vocab" "notebook/chainer_sentiment/vocab",
    -- cell-9
    Call.fit,
    -- cell-11
    Call.describeTrainingJob,
    Call.retrieveOutputFromS3,
    -- cell-15
    Call.deploy,
    -- cell-17
    Call.predict PredIn.samples,
    -- cell-19
    Call.readFile 1,
    Call.predict PredIn.testLines,
    Call.predict PredIn.testLines,
    -- cell-21
    Call.deleteEndpoint ]

/-- The step of the eight-step chain of claim C1 that a call belongs to:
0 download dataset, 1 preprocess into arrays, 2 upload to object storage,
3 submit training job, 4 download training output artifacts, 5 deploy
endpoint, 6 invoke endpoint, 7 delete endpoint.  Calls outside the chain
(local file reads) get `none`. -/
def stepOf : Call → Option Nat
  | Call.downloadDataset _ => some 0
  | Call.getStsaDataset => some 1
  | Call.savez _ => some 1
  | Call.saveNpy _ => some 1
  | Call.uploadData _ _ => some 2
  | Call.fit => some 3
  | Call.describeTrainingJob => some 4
  | Call.retrieveOutputFromS3 => some 4
  | Call.deploy => some 5
  | Call.predict _ => some 6
  | Call.deleteEndpoint => some 7
  | Call.readFile _ => none

/-- The chain steps of the trace, in the order the calls are issued. -/
def traceSteps : List Nat := notebookCalls.filterMap stepOf

/-- Claim C1: in every top-to-bottom run the externally visible operations
occur in the order download, preprocess, upload, fit, download artifacts,
deploy, invoke, delete: every pair of chain calls in the trace is in
nondecreasing step order (no later step is reached before every earlier
step has completed), and every one of the eight steps occurs in the
trace. -/
theorem notebook_steps_in_order :
    traceSteps.Pairwise (· ≤ ·) ∧
    ((List.range 8).all (fun s => traceSteps.contains s) = true) := by
  decide

/-- Claim C4 counterexample: the claim that no call is repeated fails on the
code: `dataset.get_stsa_dataset(file_paths)` is issued twice in cell-3 (the
first result bound to `new_file_paths` is discarded) and
`predictor.predict` is issued twice on the test sentences in cell-19, so
the trace of calls is not duplicate-free. -/
theorem notebook_calls_repeated :
    notebookCalls.count Call.getStsaDataset = 2 ∧
    notebookCalls.count (Call.predict PredIn.testLines) = 2 ∧
    ¬ notebookCalls.Nodup := by
  decide

/-- Claim C4 (amended): the run is the fixed sequential trace with no
branching or retry, and every call is issued exactly once, except that
`get_stsa_dataset` and `predictor.predict` on the test sentences are each
issued exactly twice. -/
theorem notebook_calls_issued_once_except_two :
    notebookCalls.all
      (fun c =>
        notebookCalls.count c ==
          if c = Call.getStsaDataset ∨ c = Call.predict PredIn.testLines
          then 2 else 1) = true := by
  decide

/-- Run of the notebook under a failure model: each call may raise an
exception (`fail? c = some e`).  The notebook contains no `except` clause
and no retry, so execution issues the calls in order and stops at the first
raising call, propagating its exception unchanged; on success the list of
issued calls is returned. -/
def runCalls (fail? : Call → Option String) : List Call → Except String (List Call)
  | [] => Except.ok []
  | c :: rest =>
    match fail? c with
    | some e => Except.error e
    | none => (runCalls fail? rest).map (fun l => c :: l)

theorem runCalls_append_ok (fail? : Call → Option String) (pre : List Call)
    (hpre : ∀ x ∈ pre, fail? x = none) (rest : List Call) :
    runCalls fail? (pre ++ rest) =
      (runCalls fail? rest).map (fun l => pre ++ l) := by
  induction pre with
  | nil => cases hr : runCalls fail? rest <;> simp [runCalls, hr, Except.map]
  | cons c pre ih =>
      have hc : fail? c = none := hpre c (by simp)
      have hrec : ∀ x ∈ pre, fail? x = none := fun x hx => hpre x (by simp [hx])
      cases hr : runCalls fail? rest <;>
        simp [runCalls, hc, ih hrec, hr, Except.map]

/-- Claim C3: no exception raised by any call in the notebook is ever
caught.  If the trace splits as `pre ++ c :: post` with every call in `pre`
succeeding and `c` raising exception `e`, then the whole run terminates
with exactly the exception `e` the SDK raised, unhandled and unchanged. -/
theorem notebook_error_propagates (fail? : Call → Option String)
    (pre post : List Call) (c : Call) (e : String)
    (htrace : notebookCalls = pre ++ c :: post)
    (hpre : ∀ x ∈ pre, fail? x = none) (hc : fail? c = some e) :
    runCalls fail? notebookCalls = Except.error e := by
  rw [htrace, runCalls_append_ok fail? pre hpre]
  simp [runCalls, hc, Except.map]

/-- Witness for C3: with a failure model where `fit` raises
"AlgorithmError" and everything else succeeds, the run stops at
`fit` with exactly that exception. -/
theorem notebook_error_propagates_witness :
    runCalls
      (fun c => if c = Call.fit then some "AlgorithmError" else none)
      notebookCalls = Except.error "AlgorithmError" :=
  notebook_error_propagates
    (fun c => if c = Call.fit then some "AlgorithmError" else none)
    [ Call.downloadDataset "stsa.binary",
      Call.getStsaDataset, Call.getStsaDataset, Call.readFile 0,
      Call.savez "/tmp/data/train_sentiment/train.npz",
      Call.savez "/tmp/data/test_sentiment/test.npz",
      Call.saveNpy "/tmp/data/vocab/vocab.npy",
      Call.uploadData "/tmp/data/train_sentiment" "notebook/chainer_sentiment/train",
      Call.uploadData "/tmp/data/test_sentiment" "notebook/chainer_sentiment/test",
      Call.uploadData "/tmp/data/vocab" "notebook/chainer_sentiment/vocab" ]
    [ Call.describeTrainingJob, Call.retrieveOutputFromS3, Call.deploy,
      Call.predict PredIn.samples, Call.readFile 1,
      Call.predict PredIn.testLines, Call.predict PredIn.testLines,
      Call.deleteEndpoint ]
    Call.fit "AlgorithmError" (by decide) (by decide) (by decide)

/-! Cell-5: saving the arrays under `/tmp/data` and uploading them, with the
`finally: shutil.rmtree('/tmp/data')` cleanup.  The local filesystem is a
list of existing paths. -/

/-- The fallible steps inside cell-5's `try` block, in source order. -/
inductive Cell5Step where
  | savezTrain
  | savezTest
  | saveVocab
  | uploadTrain
  | uploadTest
  | uploadVocab
deriving DecidableEq, Repr

def cell5BodySteps : List Cell5Step :=
  [Cell5Step.savezTrain, Cell5Step.savezTest, Cell5Step.saveVocab,
   Cell5Step.uploadTrain, Cell5Step.uploadTest, Cell5Step.uploadVocab]

/-- The directories created by the three `os.makedirs` calls (with the
implicitly created parent `/tmp/data`). -/
def mkdirsPaths : List String :=
  ["/tmp/data", "/tmp/data/train_sentiment", "/tmp/data/test_sentiment",
   "/tmp/data/vocab"]

/-- Paths a cell-5 step creates on the local filesystem: the two `np.savez`
calls and the `np.save` call write one file each; the uploads write
nothing locally. -/
def stepWrites : Cell5Step → List String
  | Cell5Step.savezTrain => ["/tmp/data/train_sentiment/train.npz"]
  | Cell5Step.savezTest => ["/tmp/data/test_sentiment/test.npz"]
  | Cell5Step.saveVocab => ["/tmp/data/vocab/vocab.npy"]
  | Cell5Step.uploadTrain => []
  | Cell5Step.uploadTest => []
  | Cell5Step.uploadVocab => []

/-- Run the `try` body under a failure model: steps execute in order, each
may raise; the first raising step aborts the rest of the body. -/
def runCell5Body (fail? : Cell5Step → Option String) :
    List Cell5Step → List String → Except String Unit × List String
  | [], fs => (Except.ok (), fs)
  | s :: rest, fs =>
    match fail? s with
    | some e => (Except.error e, fs)
    | none => runCell5Body fail? rest (fs ++ stepWrites s)

/-- Whether a path lies in the `/tmp/data` subtree (the path `/tmp/data`
itself included). -/
def underTmpData (p : String) : Bool :=
  List.isPrefixOf "/tmp/data".data p.data

/-- Effect of `shutil.rmtree('/tmp/data')`: every path under `/tmp/data`
disappears from the filesystem. -/
def rmtreeTmpData (fs : List String) : List String :=
  fs.filter (fun p => !(underTmpData p))

/-- Cell-5 in full: `os.makedirs` three times, then the `try` body, then the
`finally` clause, which runs `shutil.rmtree('/tmp/data')` whether the body
succeeded or raised, after which the body's exception (if any) propagates. -/
def runCell5 (fail? : Cell5Step → Option String) (fs : List String) :
    Except String Unit × List String :=
  let r := runCell5Body fail? cell5BodySteps (fs ++ mkdirsPaths)
  (r.1, rmtreeTmpData r.2)

theorem rmtreeTmpData_append (a b : List String) :
    rmtreeTmpData (a ++ b) = rmtreeTmpData a ++ rmtreeTmpData b := by
  simp [rmtreeTmpData, List.filter_append]

theorem rmtreeTmpData_stepWrites (s : Cell5Step) :
    rmtreeTmpData (stepWrites s) = [] := by
  cases s <;> rfl

theorem rmtreeTmpData_mkdirsPaths : rmtreeTmpData mkdirsPaths = [] := by
  rfl

theorem runCell5Body_rmtree (fail? : Cell5Step → Option String)
    (steps : List Cell5Step) (fs : List String) :
    rmtreeTmpData (runCell5Body fail? steps fs).2 = rmtreeTmpData fs := by
  induction steps generalizing fs with
  | nil => rfl
  | cons s rest ih =>
      cases hs : fail? s with
      | some e => simp [runCell5Body, hs]
      | none =>
          simp [runCell5Body, hs, ih, rmtreeTmpData_append,
                rmtreeTmpData_stepWrites]

/-- Claim C8: whatever the failure behaviour of the savez/upload steps, once
cell-5 finishes the `finally` clause has removed the whole `/tmp/data`
tree: the resulting filesystem is exactly the initial one with every path
under `/tmp/data` removed, so no path under `/tmp/data` remains. -/
theorem cell5_removes_tmp_data (fail? : Cell5Step → Option String)
    (fs : List String) :
    (runCell5 fail? fs).2 = rmtreeTmpData fs ∧
    ((runCell5 fail? fs).2).all (fun p => !(underTmpData p)) = true := by
  have h1 : (runCell5 fail? fs).2 = rmtreeTmpData fs := by
    have := runCell5Body_rmtree fail? cell5BodySteps (fs ++ mkdirsPaths)
    simpa [runCell5, rmtreeTmpData_append, rmtreeTmpData_mkdirsPaths]
      using this
  refine ⟨h1, ?_⟩
  rw [h1]
  simp only [rmtreeTmpData, List.all_eq_true]
  intro p hp
  exact (List.mem_filter.mp hp).2

/-! Cell-5 projections of the preprocessed dataset, and the dataset shape. -/

/-- Modelled from the spec: the repository's `dataset.py` helper module
(`download_dataset`, `get_stsa_dataset`) is not under `src/`.  Per the spec
it yields "a labeled-sentence dataset (sentence, binary label, vocabulary
mapping)": each element pairs an encoded sentence (an array of word ids)
with a label that is 1 for positive and 0 for negative sentiment.
`stsaElemOk` states that shape for one element. -/
def stsaElemOk (e : List Nat × Nat) : Bool := e.2 == 0 || e.2 == 1

/-- Modelled from the spec: a preprocessed STSA dataset as returned by
`get_stsa_dataset` is a list of such labeled elements. -/
def stsaDatasetOk (ds : List (List Nat × Nat)) : Bool := ds.all stsaElemOk

/-- Cell-5's `[element[0] for element in ds]` projection. -/
def datasetData (ds : List (List Nat × Nat)) : List (List Nat) :=
  ds.map (fun element => element.1)

/-- Cell-5's `[element[1] for element in ds]` projection. -/
def datasetLabels (ds : List (List Nat × Nat)) : List Nat :=
  ds.map (fun element => element.2)

/-- Claim C5: on a well-formed preprocessed dataset, the cell-5 projections
`element[0]` and `element[1]` recover exactly the data and the label of
every element (zipping them back gives the dataset), and every projected
label is 0 or 1. -/
theorem dataset_projections (ds : List (List Nat × Nat))
    (h : stsaDatasetOk ds = true) :
    (datasetData ds).zip (datasetLabels ds) = ds ∧
    ∀ l ∈ datasetLabels ds, l = 0 ∨ l = 1 := by
  constructor
  · induction ds with
    | nil => rfl
    | cons e rest ih =>
        have : stsaDatasetOk rest = true := by
          simp only [stsaDatasetOk, List.all_cons, Bool.and_eq_true] at h
          exact h.2
        simpa [datasetData, datasetLabels] using ih this
  · intro l hl
    simp only [datasetLabels, List.mem_map] at hl
    obtain ⟨e, he, rfl⟩ := hl
    have := (List.all_eq_true.mp h) e he
    simp only [stsaElemOk, Bool.or_eq_true, beq_iff_eq] at this
    exact this

/-- Witness for C5 at a concrete two-element dataset. -/
theorem dataset_projections_witness :
    stsaDatasetOk [([1, 2], 0), ([3], 1)] = true ∧
    ((datasetData [([1, 2], 0), ([3], 1)]).zip
        (datasetLabels [([1, 2], 0), ([3], 1)]) = [([1, 2], 0), ([3], 1)] ∧
      ∀ l ∈ datasetLabels [([1, 2], 0), ([3], 1)], l = 0 ∨ l = 1) :=
  ⟨by decide, dataset_projections [([1, 2], 0), ([3], 1)] (by decide)⟩

/-! Cell-5 artifacts, upload locations and the cell-9 `fit` call. -/

/-- A local artifact written by cell-5: `np.savez` writes an `.npz` archive
holding named arrays; `np.save` writes a single-array `.npy` file. -/
inductive Artifact where
  | npz (path : String) (arrayNames : List String)
  | npy (path : String)
deriving DecidableEq, Repr

def artifactPath : Artifact → String
  | Artifact.npz p _ => p
  | Artifact.npy p => p

/-- The artifacts written by cell-5, in source order:
`np.savez('/tmp/data/train_sentiment/train.npz', data=train_data,
labels=train_labels)`, the same for the test set, and
`np.save('/tmp/data/vocab/vocab.npy', vocab)`. -/
def cell5Artifacts : List Artifact :=
  [Artifact.npz "/tmp/data/train_sentiment/train.npz" ["data", "labels"],
   Artifact.npz "/tmp/data/test_sentiment/test.npz" ["data", "labels"],
   Artifact.npy "/tmp/data/vocab/vocab.npy"]

/-- The opaque storage location returned by
`sagemaker_session.upload_data(path=..., key_prefix=...)`. -/
inductive S3Loc where
  | uploaded (path : String) (keyPfx : String)
deriving DecidableEq, Repr

def train_input : S3Loc :=
  S3Loc.uploaded "/tmp/data/train_sentiment" "notebook/chainer_sentiment/train"

def test_input : S3Loc :=
  S3Loc.uploaded "/tmp/data/test_sentiment" "notebook/chainer_sentiment/test"

def vocab_input : S3Loc :=
  S3Loc.uploaded "/tmp/data/vocab" "notebook/chainer_sentiment/vocab"

/-- The channel dictionary of cell-9's
`chainer_estimator.fit({'train': train_input, 'test': test_input,
'vocab': vocab_input})`. -/
def fitChannels : List (String × S3Loc) :=
  [("train", train_input), ("test", test_input), ("vocab", vocab_input)]

/-- The key prefix of an upload call in the notebook trace, if the call is
an upload. -/
def uploadKeyOf : Call → Option String
  | Call.uploadData _ k => some k
  | _ => none

/-- Claim C6: preprocessing and upload produce exactly three artifacts —
`train.npz` and `test.npz` each holding arrays named `data` and `labels`,
and `vocab.npy` — the run issues exactly three uploads, under the key
prefixes `notebook/chainer_sentiment/train`, `.../test` and `.../vocab`,
and the three returned storage locations are passed to `fit` as the
channels named `train`, `test` and `vocab`. -/
theorem artifacts_uploads_channels :
    cell5Artifacts.map artifactPath =
      ["/tmp/data/train_sentiment/train.npz",
       "/tmp/data/test_sentiment/test.npz",
       "/tmp/data/vocab/vocab.npy"] ∧
    cell5Artifacts.length = 3 ∧
    notebookCalls.filterMap uploadKeyOf =
      ["notebook/chainer_sentiment/train",
       "notebook/chainer_sentiment/test",
       "notebook/chainer_sentiment/vocab"] ∧
    fitChannels.map Prod.fst = ["train", "test", "vocab"] ∧
    fitChannels.map Prod.snd = [train_input, test_input, vocab_input] := by
  refine ⟨rfl, rfl, ?_, rfl, rfl⟩
  rfl

/-! The `SM_CHANNEL_[channel_name]` convention and the training script
defaults. -/

/-- Character-wise ASCII uppercasing of a channel name. -/
def upperName (s : String) : String := String.mk (s.data.map Char.toUpper)

/-- The environment variable the training container sets for an input
channel, following the `SM_CHANNEL_[channel_name]` convention documented
in cell-6. -/
def smChannelVar (channelName : String) : String :=
  "SM_CHANNEL_" ++ upperName channelName

/-- Modelled from the spec and the cell-6 markdown (the training container
is vendor code outside the repository): for every input channel passed to
`fit`, the container sets `SM_CHANNEL_[channel_name]` to the directory
containing that channel's data. -/
def containerChannelEnv (dataDir : String → String)
    (channelNames : List String) : List (String × String) :=
  channelNames.map (fun c => (smChannelVar c, dataDir c))

/-- The environment variables the training script's argparse channel
defaults read, transcribed from the script excerpt in cell-6:
`os.environ['SM_CHANNEL_TRAIN']`, `os.environ['SM_CHANNEL_TEST']`,
`os.environ['SM_CHANNEL_VOCAB']`. -/
def scriptChannelDefaults : List String :=
  ["SM_CHANNEL_TRAIN", "SM_CHANNEL_TEST", "SM_CHANNEL_VOCAB"]

/-- Claim C7: applying the `SM_CHANNEL_[channel_name]` convention to the
channel names of the cell-9 `fit` call yields exactly the environment
variables the training script's defaults read, and for any assignment of
channel data directories the container environment pairs each of those
variables with that channel's data directory. -/
theorem fit_channels_match_script_env :
    (fitChannels.map Prod.fst).map smChannelVar = scriptChannelDefaults ∧
    ∀ dataDir : String → String,
      containerChannelEnv dataDir (fitChannels.map Prod.fst) =
        [("SM_CHANNEL_TRAIN", dataDir "train"),
         ("SM_CHANNEL_TEST", dataDir "test"),
         ("SM_CHANNEL_VOCAB", dataDir "vocab")] := by
  exact ⟨rfl, fun dataDir => rfl⟩

/-! The hosting contract of cell-6. -/

/-- One function of the hosting interface a user script can provide. -/
structure HostingFn where
  name : String
  alwaysRequired : Bool
  hasDefaultImpl : Bool
deriving DecidableEq, Repr

/-- The four-function hosting contract, transcribed from the cell-6
markdown: "`model_fn(model_dir)` (always required for hosting)";
"`model_fn` is always required, but default implementations exist for the
remaining functions" `input_fn`, `predict_fn` and `output_fn`. -/
def hostingContract : List HostingFn :=
  [⟨"model_fn", true, false⟩,
   ⟨"input_fn", false, true⟩,
   ⟨"predict_fn", false, true⟩,
   ⟨"output_fn", false, true⟩]

/-- Claim C2 counterexample: the claim that every one of the four hosting
functions is required of the user script fails on the source: `input_fn`
is in the contract with a default implementation and is not always
required. -/
theorem hosting_not_all_required :
    HostingFn.mk "input_fn" false true ∈ hostingContract ∧
    ¬ (∀ f ∈ hostingContract, f.alwaysRequired = true) := by
  decide

/-- Claim C2 (amended): the hosting interface names the four functions
`model_fn`, `input_fn`, `predict_fn`, `output_fn`; only `model_fn` is
always required of the user script, and each of the other three has a
default implementation the script may rely on. -/
theorem hosting_contract_requirements :
    hostingContract.map HostingFn.name =
      ["model_fn", "input_fn", "predict_fn", "output_fn"] ∧
    (hostingContract.filter
        (fun f => f.alwaysRequired)).map HostingFn.name = ["model_fn"] ∧
    hostingContract.all
      (fun f => f.alwaysRequired || f.hasDefaultImpl) = true := by
  decide

/-! Cell-19: bounded read of the test file and the two predict calls. -/

/-- Python's `f.readlines(hint)` on the list of lines of a file: lines are
returned in order, and reading stops after the first line that makes the
total size read reach the hint (so the lines beyond roughly `hint` bytes
are not read). -/
def readlinesHint (hint : Nat) : List String → List String
  | [] => []
  | l :: ls =>
    if hint ≤ l.length then [l] else l :: readlinesHint (hint - l.length) ls

/-- Cell-19's payload construction:
`sentences = f.readlines(2000)` followed by
`sentences = [sentence[1:].strip() for sentence in sentences]`. -/
def cell19Sentences (lines : List String) : List String :=
  (readlinesHint 2000 lines).map (fun sentence => (sentence.drop 1).trim)

/-- Cell-19's prediction block: `predictions = predictor.predict(sentences)`
inside the `with` block and again after it; the two endpoint invocations
are `ep1` and `ep2`, and the second assignment overwrites the first, so
the printed value is the second call's result. -/
def cell19Predictions {α : Type} (ep1 ep2 : List String → List α)
    (lines : List String) : List α :=
  let sentences := cell19Sentences lines
  let predictions := ep1 sentences
  let predictions := ep2 sentences
  predictions

/-- Claim C9: the printed predictions of cell-19 are those of the second of
the two identical `predict` calls, the first call's result being discarded
by reassignment; consequently the printed output equals the first call's
output exactly when the two invocations of the endpoint agree on that
input, i.e. only if the endpoint behaves deterministically there. -/
theorem cell19_prints_second_predict {α : Type}
    (ep1 ep2 : List String → List α) (lines : List String) :
    cell19Predictions ep1 ep2 lines = ep2 (cell19Sentences lines) ∧
    (cell19Predictions ep1 ep2 lines = ep1 (cell19Sentences lines) ↔
      ep2 (cell19Sentences lines) = ep1 (cell19Sentences lines)) :=
  ⟨rfl, Iff.rfl⟩

theorem readlinesHint_front (hint : Nat) (ls : List String) :
    readlinesHint hint ls <+: ls := by
  induction ls generalizing hint with
  | nil => exact List.nil_prefix
  | cons l ls ih =>
      simp only [readlinesHint]
      split
      · exact ⟨ls, rfl⟩
      · exact List.cons_prefix_cons.mpr ⟨rfl, ih _⟩

theorem readlinesHint_dropLast_sum (hint : Nat) (h : 0 < hint)
    (ls : List String) :
    (((readlinesHint hint ls).dropLast.map String.length).sum) < hint := by
  induction ls generalizing hint with
  | nil => simpa [readlinesHint] using h
  | cons l ls ih =>
      simp only [readlinesHint]
      split
      · simpa using h
      · rename_i hlt
        push_neg at hlt
        cases hr : readlinesHint (hint - l.length) ls with
        | nil => simpa [hr] using h
        | cons r rs =>
            have hrec := ih (hint - l.length) (by omega)
            rw [hr] at hrec
            simp only [hr, List.dropLast_cons₂, List.map_cons, List.sum_cons]
            omega

/-- Claim C10: the test-set prediction pass sends only a bounded prefix of
the test file: `readlines(2000)` returns a prefix of the file's lines
whose total size short of the last line is below 2000, and every payload
sent is exactly `sentence[1:].strip()` of one of those lines. -/
theorem cell19_bounded_prefix_payloads (lines : List String) :
    readlinesHint 2000 lines <+: lines ∧
    (((readlinesHint 2000 lines).dropLast.map String.length).sum < 2000) ∧
    cell19Sentences lines =
      (readlinesHint 2000 lines).map
        (fun sentence => (sentence.drop 1).trim) :=
  ⟨readlinesHint_front 2000 lines,
   readlinesHint_dropLast_sum 2000 (by decide) lines, rfl⟩

end ChainerSentiment
